import Mathlib

/-! PUT uploader (`pkg/pipeline/sink/uploader/put.go`).

A shallow embedding of `PUTUploader.upload`.  The operating system, the MIME
table and the HTTP transport are collaborators outside the file: they enter
the model as the fields of `Env`, and every theorem quantifies over all of
them.  The effects of a call (descriptors opened and closed, requests handed
to the transport, log records) are kept in an explicit `World` that is passed
through the call.  The `defer` statements of the Go function are rendered by
nesting: the code that follows a `defer` is a function of its own, and the
deferred call is applied to whatever world that function returns.
-/

set_option linter.unusedVariables false

namespace Uploader

/-! ## Data model -/

/-- Go `error` values, by the way they were made.  `lib` is an error handed
back by the standard library (`os.Open`, `File.Stat`,
`http.NewRequestWithContext`, `Client.Do`); `errorf` is built by `fmt.Errorf`
without a wrapped cause; `wrapped` is the result of the package helper
`wrap(name, err)`. -/
inductive GoError where
  | lib (detail : String)
  | errorf (msg : String)
  | wrapped (name : String) (cause : GoError)
  deriving DecidableEq, Repr

/-- Modelled from the spec: the helper `wrap` of package `uploader` is called
by `put.go` but defined elsewhere in the package.  The spec says a failure "is
wrapped with the fixed mechanism label", so `wrap name err` is the error `err`
tagged with `name`, and nothing else produces a tagged error. -/
def wrap (name : String) (err : GoError) : GoError :=
  GoError.wrapped name err

/-- The struct `PUTUploader`; `timeout` is a `time.Duration` (nanoseconds). -/
structure PUTUploader where
  endpoint : String
  timeout : Int
  deriving DecidableEq, Repr

/-- The constructor `NewPUTUploader`: both arguments are stored as given. -/
def NewPUTUploader (endpoint : String) (timeout : Int) : PUTUploader :=
  { endpoint := endpoint, timeout := timeout }

/-- The part of an `http.Request` that `upload` sets: method, URL, header,
declared content length, the descriptor of the file streamed as the body, and
the timeout of the context the request runs under. -/
structure Request where
  method : String
  url : String
  header : List (String × String)
  contentLength : Int
  body : Nat
  timeout : Int
  deriving DecidableEq, Repr

/-- The part of an `http.Response` that `upload` reads: the status code and
the identity of the body it has to close. -/
structure Response where
  statusCode : Int
  body : Nat
  deriving DecidableEq, Repr

/-- Something that is open until closed: a file descriptor or a response
body. -/
inductive Resource where
  | file (fd : Nat)
  | body (id : Nat)
  deriving DecidableEq, Repr

/-- One call of `logger.Infow`: the message and its key/value pairs. -/
structure LogRecord where
  msg : String
  fields : List (String × String)
  deriving DecidableEq, Repr

/-- The observable effects of calls: the resources currently open, the
`Close` calls made so far (oldest first), the requests handed to the
transport (oldest first), and the log records written (oldest first). -/
structure World where
  openSet : List Resource
  closed : List Resource
  requests : List Request
  logs : List LogRecord
  deriving DecidableEq, Repr

/-- A resource becomes open. -/
def World.acquire (w : World) (r : Resource) : World :=
  { w with openSet := r :: w.openSet }

/-- A `Close` call on `r`: it is recorded, and `r` leaves the open resources
if it is among them.  A `Close` on what is closed already (for an `*os.File`
it returns `os.ErrClosed`) is recorded and changes nothing else. -/
def World.close (w : World) (r : Resource) : World :=
  { w with openSet := w.openSet.erase r, closed := w.closed ++ [r] }

/-- A request is handed to the transport. -/
def World.sent (w : World) (req : Request) : World :=
  { w with requests := w.requests ++ [req] }

/-- The effect of one call `client.Do(req)` on the world, whatever it
returns: the request is handed to the transport, and net/http closes the body
of the request, also on errors.  The body of the request of `upload` is the
file opened at line 43 (it is the last argument of line 63). -/
def World.afterDo (w : World) (req : Request) : World :=
  (w.sent req).close (Resource.file req.body)

/-- A record is written to the log. -/
def World.logged (w : World) (r : LogRecord) : World :=
  { w with logs := w.logs ++ [r] }

/-- The collaborators of `upload`.  `osOpen` is `os.Open` (a descriptor or an
error); `fileStat` is `file.Stat()` followed by `fileInfo.Size()`;
`filepathExt` is `filepath.Ext`; `mimeTypeByExtension` is
`mime.TypeByExtension`; `urlParse` is the check of
`http.NewRequestWithContext` on its URL argument (`none` when the request is
constructed); `clientDo` is what `(*http.Client).Do` returns, a response or
an error; what `Do` does to the world is `World.afterDo`. -/
structure Env where
  osOpen : String → Except GoError Nat
  fileStat : Nat → Except GoError Int
  filepathExt : String → String
  mimeTypeByExtension : String → String
  urlParse : String → Option GoError
  clientDo : Request → Except GoError Response

/-- The three results of `upload`: `(string, int64, error)`; a nil error is
`none`. -/
structure UploadResult where
  url : String
  size : Int
  err : Option GoError
  deriving DecidableEq, Repr

/-! ## Operations -/

/-- The call `fmt.Sprintf("%s/%s", a, b)`. -/
def sprintfSlash (a b : String) : String :=
  a ++ "/" ++ b

/-- The verb `%d` applied to a Go `int`: an optional minus sign and the
decimal digits. -/
def sprintfD (n : Int) : String :=
  toString n

/-- The call `fmt.Errorf("HTTP upload failed with status code: %d", code)`. -/
def statusError (code : Int) : GoError :=
  GoError.errorf ("HTTP upload failed with status code: " ++ sprintfD code)

/-- The method `Header.Set`: the entry of `key` is replaced by `value`. -/
def headerSet (h : List (String × String)) (key value : String) : List (String × String) :=
  (key, value) :: h.filter (fun kv => kv.1 != key)

/-- The method `Header.Get`: the value stored under `key`, or the empty
string. -/
def headerGet (h : List (String × String)) (key : String) : String :=
  match h.find? (fun kv => kv.1 == key) with
  | some kv => kv.2
  | none => ""

/-- Lines 54-57: the MIME type of the extension of `localFilepath`, or
`application/octet-stream` when the lookup is empty. -/
def resolveContentType (env : Env) (localFilepath : String) : String :=
  let contentType := env.mimeTypeByExtension (env.filepathExt localFilepath)
  if contentType = "" then "application/octet-stream" else contentType

/-- The call `http.NewRequestWithContext(ctx, method, url, file)` where `ctx`
carries `timeout`: an error when the URL is rejected, otherwise a request with
an empty header and, for a body that is a file, no declared length yet. -/
def newRequestWithContext (env : Env) (timeout : Int) (method url : String) (file : Nat) :
    Except GoError Request :=
  match env.urlParse url with
  | some err => .error err
  | none =>
    .ok { method := method, url := url, header := [], contentLength := 0,
          body := file, timeout := timeout }

/-- Lines 78-83, the code after `defer resp.Body.Close()`: the status check,
the log record and the successful return. -/
def uploadResponse (u : PUTUploader) (storageFilepath requestURL : String) (size : Int)
    (resp : Response) (w : World) : UploadResult × World :=
  if resp.statusCode < 200 ∨ resp.statusCode ≥ 300 then
    ({ url := "", size := 0, err := some (statusError resp.statusCode) }, w)
  else
    ({ url := requestURL, size := size, err := none },
      w.logged { msg := "file uploaded successfully",
                 fields := [("endpoint", u.endpoint), ("path", storageFilepath)] })

/-- Lines 49-83, the code after `defer file.Close()`.  The call of line 72
leaves the world `w.afterDo req`; when it returns a response the body of the
response is open, and the deferred `resp.Body.Close()` is applied to the world
left by `uploadResponse`. -/
def uploadFile (env : Env) (u : PUTUploader) (localFilepath storageFilepath : String)
    (file : Nat) (w : World) : UploadResult × World :=
  match env.fileStat file with
  | .error err => ({ url := "", size := 0, err := some (wrap "HTTP" err) }, w)
  | .ok size =>
    let contentType := resolveContentType env localFilepath
    let requestURL := sprintfSlash u.endpoint storageFilepath
    match newRequestWithContext env u.timeout "PUT" requestURL file with
    | .error err => ({ url := "", size := 0, err := some (wrap "HTTP" err) }, w)
    | .ok req0 =>
      let req := { req0 with header := headerSet req0.header "Content-Type" contentType,
                             contentLength := size }
      match env.clientDo req with
      | .error err => ({ url := "", size := 0, err := some (wrap "HTTP" err) }, w.afterDo req)
      | .ok resp =>
        let out := uploadResponse u storageFilepath requestURL size resp
          ((w.afterDo req).acquire (Resource.body resp.body))
        (out.1, out.2.close (Resource.body resp.body))

/-- The method `(*PUTUploader).upload`.  `outputType` has the type
`types.OutputType`, declared outside the file; it is a parameter here.  The
deferred `file.Close()` is applied to the world left by `uploadFile`. -/
def upload {OutputType : Type} (env : Env) (u : PUTUploader)
    (localFilepath storageFilepath : String) (outputType : OutputType) (w : World) :
    UploadResult × World :=
  match env.osOpen localFilepath with
  | .error err => ({ url := "", size := 0, err := some (wrap "HTTP" err) }, w)
  | .ok file =>
    let out := uploadFile env u localFilepath storageFilepath file
      (w.acquire (Resource.file file))
    (out.1, out.2.close (Resource.file file))

/-- The request `upload` hands to the transport once the file is open with
descriptor `file`, its size is `size` and the request is constructed: the
request of line 63 after lines 68 and 69. -/
def putRequest (env : Env) (u : PUTUploader) (localFilepath storageFilepath : String)
    (file : Nat) (size : Int) : Request :=
  { method := "PUT", url := u.endpoint ++ "/" ++ storageFilepath,
    header := [("Content-Type", resolveContentType env localFilepath)],
    contentLength := size, body := file, timeout := u.timeout }

/-! ## A concrete environment -/

/-- The loop of Go's `filepath.Ext` on the characters of the path read from
the end: `seen` holds what has been passed, in path order. -/
def extScan : List Char → List Char → String
  | [], _ => ""
  | c :: rest, seen =>
    if c = '/' then ""
    else if c = '.' then String.mk (c :: seen)
    else extScan rest (c :: seen)

/-- Go's `filepath.Ext` for paths separated by a slash: the suffix that starts
at the last dot of the last path element, or the empty string. -/
def goExt (path : String) : String :=
  extScan path.data.reverse []

/-- A small world: a file `/out/room.mp4` of 1024 bytes, a file `/out/blob`
of 3 bytes and a file `/out/notes` whose stat fails; a MIME table that knows `.mp4`; a
URL check that rejects a blank in the URL; and a server that answers 200
under `http://store/ok/`, 404 under `http://store/gone/`, 302 under
`http://store/moved/`, and is unreachable otherwise; an exchange takes more
than a millisecond, so a request whose context has a shorter timeout ends in
the deadline error.  Durations are in nanoseconds: 30 s is 30000000000. -/
def demoEnv : Env where
  osOpen := fun p =>
    if p = "/out/room.mp4" then .ok 7
    else if p = "/out/notes" then .ok 8
    else if p = "/out/blob" then .ok 9
    else .error (GoError.lib "open: no such file or directory")
  fileStat := fun fd =>
    if fd = 7 then .ok 1024
    else if fd = 9 then .ok 3
    else .error (GoError.lib "stat: input/output error")
  filepathExt := goExt
  mimeTypeByExtension := fun e => if e = ".mp4" then "video/mp4" else ""
  urlParse := fun url =>
    if ' ' ∈ url.data then some (GoError.lib "parse: invalid character in URL") else none
  clientDo := fun req =>
    if req.timeout ≤ 1000000 then .error (GoError.lib "context deadline exceeded")
    else if "http://store/ok/".data.isPrefixOf req.url.data then .ok { statusCode := 200, body := 21 }
    else if "http://store/gone/".data.isPrefixOf req.url.data then .ok { statusCode := 404, body := 22 }
    else if "http://store/moved/".data.isPrefixOf req.url.data then .ok { statusCode := 302, body := 23 }
    else .error (GoError.lib "dial tcp: connection refused")

/-- A world in which one unrelated descriptor is open and nothing has
happened yet. -/
def demoWorld : World :=
  { openSet := [Resource.file 3], closed := [], requests := [], logs := [] }

/-! ## The five ways through `upload` -/

theorem headerGet_headerSet (h : List (String × String)) (key value : String) :
    headerGet (headerSet h key value) key = value := by
  simp [headerGet, headerSet]

theorem acquire_close (w : World) (r : Resource) :
    ((w.acquire r).close r).openSet = w.openSet := by
  simp [World.acquire, World.close]

/-- The file does not open (line 45). -/
theorem upload_open_error {OutputType : Type} (env : Env) (u : PUTUploader)
    (localFilepath storageFilepath : String) (outputType : OutputType) (w : World)
    (e : GoError) (hopen : env.osOpen localFilepath = .error e) :
    upload env u localFilepath storageFilepath outputType w
      = ({ url := "", size := 0, err := some (wrap "HTTP" e) }, w) := by
  simp only [upload, hopen]

/-- The stat fails (line 51). -/
theorem upload_stat_error {OutputType : Type} (env : Env) (u : PUTUploader)
    (localFilepath storageFilepath : String) (outputType : OutputType) (w : World)
    (file : Nat) (e : GoError)
    (hopen : env.osOpen localFilepath = .ok file)
    (hstat : env.fileStat file = .error e) :
    upload env u localFilepath storageFilepath outputType w
      = ({ url := "", size := 0, err := some (wrap "HTTP" e) },
          (w.acquire (Resource.file file)).close (Resource.file file)) := by
  simp only [upload, hopen, uploadFile, hstat]

/-- The request is not constructed (line 65). -/
theorem upload_request_error {OutputType : Type} (env : Env) (u : PUTUploader)
    (localFilepath storageFilepath : String) (outputType : OutputType) (w : World)
    (file : Nat) (n : Int) (e : GoError)
    (hopen : env.osOpen localFilepath = .ok file)
    (hstat : env.fileStat file = .ok n)
    (hreq : env.urlParse (u.endpoint ++ "/" ++ storageFilepath) = some e) :
    upload env u localFilepath storageFilepath outputType w
      = ({ url := "", size := 0, err := some (wrap "HTTP" e) },
          (w.acquire (Resource.file file)).close (Resource.file file)) := by
  simp only [upload, hopen, uploadFile, hstat, newRequestWithContext, sprintfSlash, hreq]

/-- The transport returns an error (line 74). -/
theorem upload_transport_error {OutputType : Type} (env : Env) (u : PUTUploader)
    (localFilepath storageFilepath : String) (outputType : OutputType) (w : World)
    (file : Nat) (n : Int) (e : GoError)
    (hopen : env.osOpen localFilepath = .ok file)
    (hstat : env.fileStat file = .ok n)
    (hreq : env.urlParse (u.endpoint ++ "/" ++ storageFilepath) = none)
    (hdo : env.clientDo (putRequest env u localFilepath storageFilepath file n) = .error e) :
    upload env u localFilepath storageFilepath outputType w
      = ({ url := "", size := 0, err := some (wrap "HTTP" e) },
          (((w.acquire (Resource.file file)).afterDo
              (putRequest env u localFilepath storageFilepath file n))).close
            (Resource.file file)) := by
  have hdo2 := hdo
  simp only [putRequest] at hdo2
  simp only [upload, hopen, uploadFile, hstat, newRequestWithContext, sprintfSlash, hreq,
    headerSet, List.filter_nil, hdo2, putRequest]

/-- The transport returns a response (lines 76-83). -/
theorem upload_response {OutputType : Type} (env : Env) (u : PUTUploader)
    (localFilepath storageFilepath : String) (outputType : OutputType) (w : World)
    (file : Nat) (n : Int) (resp : Response)
    (hopen : env.osOpen localFilepath = .ok file)
    (hstat : env.fileStat file = .ok n)
    (hreq : env.urlParse (u.endpoint ++ "/" ++ storageFilepath) = none)
    (hdo : env.clientDo (putRequest env u localFilepath storageFilepath file n) = .ok resp) :
    upload env u localFilepath storageFilepath outputType w
      = ((uploadResponse u storageFilepath (u.endpoint ++ "/" ++ storageFilepath) n resp
            ((((w.acquire (Resource.file file)).afterDo
              (putRequest env u localFilepath storageFilepath file n))).acquire
                (Resource.body resp.body))).1,
         (((uploadResponse u storageFilepath (u.endpoint ++ "/" ++ storageFilepath) n resp
            ((((w.acquire (Resource.file file)).afterDo
              (putRequest env u localFilepath storageFilepath file n))).acquire
                (Resource.body resp.body))).2.close (Resource.body resp.body)).close
            (Resource.file file))) := by
  have hdo2 := hdo
  simp only [putRequest] at hdo2
  simp only [upload, hopen, uploadFile, hstat, newRequestWithContext, sprintfSlash, hreq,
    headerSet, List.filter_nil, hdo2, putRequest]

/-- The status check of line 78 passes exactly on 200..299. -/
theorem uploadResponse_ok (u : PUTUploader) (storageFilepath requestURL : String) (size : Int)
    (resp : Response) (w : World)
    (hs : 200 ≤ resp.statusCode ∧ resp.statusCode ≤ 299) :
    uploadResponse u storageFilepath requestURL size resp w
      = ({ url := requestURL, size := size, err := none },
          w.logged { msg := "file uploaded successfully",
                     fields := [("endpoint", u.endpoint), ("path", storageFilepath)] }) := by
  have h : ¬ (resp.statusCode < 200 ∨ resp.statusCode ≥ 300) := by omega
  simp only [uploadResponse, h, if_false]

theorem uploadResponse_fail (u : PUTUploader) (storageFilepath requestURL : String) (size : Int)
    (resp : Response) (w : World)
    (hs : ¬ (200 ≤ resp.statusCode ∧ resp.statusCode ≤ 299)) :
    uploadResponse u storageFilepath requestURL size resp w
      = ({ url := "", size := 0, err := some (statusError resp.statusCode) }, w) := by
  have h : resp.statusCode < 200 ∨ resp.statusCode ≥ 300 := by omega
  simp only [uploadResponse, h, if_true]

/-! ## The claims -/

/-- C1: for an uploader built by `NewPUTUploader endpoint timeout`, when the
file opens, the stat gives `n`, the request is constructed and the transport
answers with status 200, `upload` returns the URL `endpoint ++ "/" ++
storageFilepath` as it stands, the size `n` and a nil error. -/
theorem upload_status_200_result {OutputType : Type} (env : Env) (endpoint : String)
    (timeout : Int) (localFilepath storageFilepath : String) (outputType : OutputType)
    (w : World) (file : Nat) (n : Int) (resp : Response)
    (hopen : env.osOpen localFilepath = .ok file)
    (hstat : env.fileStat file = .ok n)
    (hreq : env.urlParse (endpoint ++ "/" ++ storageFilepath) = none)
    (hdo : env.clientDo (putRequest env (NewPUTUploader endpoint timeout) localFilepath
      storageFilepath file n) = .ok resp)
    (h200 : resp.statusCode = 200) :
    (upload env (NewPUTUploader endpoint timeout) localFilepath storageFilepath outputType w).1
      = { url := endpoint ++ "/" ++ storageFilepath, size := n, err := none } := by
  rw [upload_response env (NewPUTUploader endpoint timeout) localFilepath storageFilepath
    outputType w file n resp hopen hstat hreq hdo]
  rw [uploadResponse_ok _ _ _ _ _ _ (by omega)]
  rfl

theorem upload_status_200_result_witness :
    demoEnv.osOpen "/out/room.mp4" = .ok 7 ∧ demoEnv.fileStat 7 = .ok 1024 ∧
    (upload demoEnv (NewPUTUploader "http://store/ok/" 30000000000) "/out/room.mp4" "/room.mp4" ()
      demoWorld).1 = { url := "http://store/ok///room.mp4", size := 1024, err := none } :=
  ⟨rfl, rfl, upload_status_200_result demoEnv "http://store/ok/" 30000000000 "/out/room.mp4" "/room.mp4" ()
    demoWorld 7 1024 { statusCode := 200, body := 21 } rfl rfl rfl rfl rfl⟩

/-- C2: when the file opens, the stat succeeds, the request is constructed
and the transport answers with status `s`, the error of `upload` is nil if and
only if `200 ≤ s ≤ 299`; outside that range the error is the `fmt.Errorf`
value whose text ends in the decimal rendering of `s`. -/
theorem upload_error_iff_status {OutputType : Type} (env : Env) (u : PUTUploader)
    (localFilepath storageFilepath : String) (outputType : OutputType) (w : World)
    (file : Nat) (n : Int) (resp : Response)
    (hopen : env.osOpen localFilepath = .ok file)
    (hstat : env.fileStat file = .ok n)
    (hreq : env.urlParse (u.endpoint ++ "/" ++ storageFilepath) = none)
    (hdo : env.clientDo (putRequest env u localFilepath storageFilepath file n) = .ok resp) :
    ((upload env u localFilepath storageFilepath outputType w).1.err = none
        ↔ 200 ≤ resp.statusCode ∧ resp.statusCode ≤ 299) ∧
    (¬ (200 ≤ resp.statusCode ∧ resp.statusCode ≤ 299) →
      (upload env u localFilepath storageFilepath outputType w).1.err
        = some (GoError.errorf
            ("HTTP upload failed with status code: " ++ toString resp.statusCode))) := by
  rw [upload_response env u localFilepath storageFilepath outputType w file n resp
    hopen hstat hreq hdo]
  by_cases hs : 200 ≤ resp.statusCode ∧ resp.statusCode ≤ 299
  · rw [uploadResponse_ok _ _ _ _ _ _ hs]
    exact ⟨⟨fun _ => hs, fun _ => rfl⟩, fun h => absurd hs h⟩
  · rw [uploadResponse_fail _ _ _ _ _ _ hs]
    refine ⟨⟨fun h => ?_, fun h => absurd h hs⟩, fun _ => rfl⟩
    simp at h

theorem upload_error_iff_status_witness :
    (((upload demoEnv (NewPUTUploader "http://store/moved" 30000000000) "/out/room.mp4" "b.mp4" ()
        demoWorld).1.err = none ↔ (200 : Int) ≤ 302 ∧ (302 : Int) ≤ 299) ∧
    (¬ ((200 : Int) ≤ 302 ∧ (302 : Int) ≤ 299) →
      (upload demoEnv (NewPUTUploader "http://store/moved" 30000000000) "/out/room.mp4" "b.mp4" ()
        demoWorld).1.err = some (GoError.errorf "HTTP upload failed with status code: 302"))) :=
  upload_error_iff_status demoEnv (NewPUTUploader "http://store/moved" 30000000000) "/out/room.mp4"
    "b.mp4" () demoWorld 7 1024 { statusCode := 302, body := 23 } rfl rfl rfl rfl

/-- C3, at the failing input: an uploader with a timeout of 30 s, and a
server that answers 404 within it.  The error returned is
the bare `fmt.Errorf` value of line 79; it is not `wrap "HTTP" e` for any `e`,
and no `wrap` label is on it at all.  On the same file a transport failure
does return `wrap "HTTP" e`. -/
theorem upload_status_error_not_wrapped :
    (upload demoEnv (NewPUTUploader "http://store/gone" 30000000000) "/out/room.mp4" "a/room.mp4" ()
      demoWorld).1.err = some (GoError.errorf "HTTP upload failed with status code: 404") ∧
    (∀ name e, (upload demoEnv (NewPUTUploader "http://store/gone" 30000000000) "/out/room.mp4"
      "a/room.mp4" () demoWorld).1.err ≠ some (wrap name e)) ∧
    (upload demoEnv (NewPUTUploader "http://nowhere" 30000000000) "/out/room.mp4" "a/room.mp4" ()
      demoWorld).1.err = some (wrap "HTTP" (GoError.lib "dial tcp: connection refused")) := by
  have h : (upload demoEnv (NewPUTUploader "http://store/gone" 30000000000) "/out/room.mp4"
      "a/room.mp4" () demoWorld).1.err
      = some (GoError.errorf "HTTP upload failed with status code: 404") := by decide
  refine ⟨h, ?_, by decide⟩
  intro name e
  rw [h]
  simp [wrap]

/-- C4: when the file cannot be opened, `upload` returns a non-nil error and
the trace of requests is what it was before the call; nothing else in the
world changes either. -/
theorem upload_open_failure_no_request {OutputType : Type} (env : Env) (u : PUTUploader)
    (localFilepath storageFilepath : String) (outputType : OutputType) (w : World)
    (e : GoError) (hopen : env.osOpen localFilepath = .error e) :
    (upload env u localFilepath storageFilepath outputType w).1.err ≠ none ∧
    (upload env u localFilepath storageFilepath outputType w).2.requests = w.requests ∧
    (upload env u localFilepath storageFilepath outputType w).2 = w := by
  rw [upload_open_error env u localFilepath storageFilepath outputType w e hopen]
  simp

theorem upload_open_failure_no_request_witness :
    demoEnv.osOpen "/out/absent.mp4" = .error (GoError.lib "open: no such file or directory") ∧
    (upload demoEnv (NewPUTUploader "http://store/ok" 30000000000) "/out/absent.mp4" "a.mp4" ()
      demoWorld).1.err ≠ none ∧
    (upload demoEnv (NewPUTUploader "http://store/ok" 30000000000) "/out/absent.mp4" "a.mp4" ()
      demoWorld).2.requests = [] :=
  ⟨rfl,
    (upload_open_failure_no_request demoEnv (NewPUTUploader "http://store/ok" 30000000000)
      "/out/absent.mp4" "a.mp4" () demoWorld _ rfl).1,
    (upload_open_failure_no_request demoEnv (NewPUTUploader "http://store/ok" 30000000000)
      "/out/absent.mp4" "a.mp4" () demoWorld _ rfl).2.1⟩

/-- What `upload` leaves in the request trace once the request is
constructed: the trace of before and the one request `putRequest`. -/
theorem upload_requests {OutputType : Type} (env : Env) (u : PUTUploader)
    (localFilepath storageFilepath : String) (outputType : OutputType) (w : World)
    (file : Nat) (n : Int)
    (hopen : env.osOpen localFilepath = .ok file)
    (hstat : env.fileStat file = .ok n)
    (hreq : env.urlParse (u.endpoint ++ "/" ++ storageFilepath) = none) :
    (upload env u localFilepath storageFilepath outputType w).2.requests
      = w.requests ++ [putRequest env u localFilepath storageFilepath file n] := by
  cases hdo : env.clientDo (putRequest env u localFilepath storageFilepath file n) with
  | error e =>
    rw [upload_transport_error env u localFilepath storageFilepath outputType w file n e
      hopen hstat hreq hdo]
    simp [World.close, World.afterDo, World.sent, World.acquire]
  | ok resp =>
    rw [upload_response env u localFilepath storageFilepath outputType w file n resp
      hopen hstat hreq hdo]
    by_cases hs : 200 ≤ resp.statusCode ∧ resp.statusCode ≤ 299
    · rw [uploadResponse_ok _ _ _ _ _ _ hs]
      simp [World.close, World.afterDo, World.sent, World.acquire, World.logged]
    · rw [uploadResponse_fail _ _ _ _ _ _ hs]
      simp [World.close, World.afterDo, World.sent, World.acquire]

/-- The size `upload` returns with a nil error is the size of the stat. -/
theorem upload_size_of_ok {OutputType : Type} (env : Env) (u : PUTUploader)
    (localFilepath storageFilepath : String) (outputType : OutputType) (w : World)
    (file : Nat) (n : Int)
    (hopen : env.osOpen localFilepath = .ok file)
    (hstat : env.fileStat file = .ok n)
    (hreq : env.urlParse (u.endpoint ++ "/" ++ storageFilepath) = none)
    (hok : (upload env u localFilepath storageFilepath outputType w).1.err = none) :
    (upload env u localFilepath storageFilepath outputType w).1.size = n := by
  cases hdo : env.clientDo (putRequest env u localFilepath storageFilepath file n) with
  | error e =>
    rw [upload_transport_error env u localFilepath storageFilepath outputType w file n e
      hopen hstat hreq hdo] at hok
    simp at hok
  | ok resp =>
    rw [upload_response env u localFilepath storageFilepath outputType w file n resp
      hopen hstat hreq hdo] at hok ⊢
    by_cases hs : 200 ≤ resp.statusCode ∧ resp.statusCode ≤ 299
    · rw [uploadResponse_ok _ _ _ _ _ _ hs]
    · rw [uploadResponse_fail _ _ _ _ _ _ hs] at hok
      simp at hok

/-- C5: when the call reaches the network (the file opens, the stat succeeds,
the request is constructed) exactly one request joins the trace, and its
`Content-Type` header is the MIME lookup of the extension of `localFilepath`
when that is not empty and `application/octet-stream` when it is: a value in
which neither `storageFilepath` nor `outputType` occurs. -/
theorem upload_content_type {OutputType : Type} (env : Env) (u : PUTUploader)
    (localFilepath storageFilepath : String) (outputType : OutputType) (w : World)
    (file : Nat) (n : Int)
    (hopen : env.osOpen localFilepath = .ok file)
    (hstat : env.fileStat file = .ok n)
    (hreq : env.urlParse (u.endpoint ++ "/" ++ storageFilepath) = none) :
    ∃ req, (upload env u localFilepath storageFilepath outputType w).2.requests
        = w.requests ++ [req] ∧
      (env.mimeTypeByExtension (env.filepathExt localFilepath) ≠ "" →
        headerGet req.header "Content-Type"
          = env.mimeTypeByExtension (env.filepathExt localFilepath)) ∧
      (env.mimeTypeByExtension (env.filepathExt localFilepath) = "" →
        headerGet req.header "Content-Type" = "application/octet-stream") := by
  refine ⟨putRequest env u localFilepath storageFilepath file n,
    upload_requests env u localFilepath storageFilepath outputType w file n hopen hstat hreq,
    ?_, ?_⟩
  · intro h
    simp [putRequest, headerGet, resolveContentType, h]
  · intro h
    simp [putRequest, headerGet, resolveContentType, h]

theorem upload_content_type_witness :
    (∃ req, (upload demoEnv (NewPUTUploader "http://nowhere" 30000000000) "/out/room.mp4" "x/y" ()
        demoWorld).2.requests = [req] ∧ headerGet req.header "Content-Type" = "video/mp4") ∧
    (∃ req, (upload demoEnv (NewPUTUploader "http://store/ok" 30000000000) "/out/blob" "x/y.mp4" ()
        demoWorld).2.requests = [req] ∧
      headerGet req.header "Content-Type" = "application/octet-stream") := by
  constructor
  · obtain ⟨req, h1, h2, _⟩ := upload_content_type demoEnv (NewPUTUploader "http://nowhere" 30000000000)
      "/out/room.mp4" "x/y" () demoWorld 7 1024 rfl rfl rfl
    exact ⟨req, h1, h2 (by decide)⟩
  · obtain ⟨req, h1, _, h3⟩ := upload_content_type demoEnv (NewPUTUploader "http://store/ok" 30000000000)
      "/out/blob" "x/y.mp4" () demoWorld 9 3 rfl rfl rfl
    exact ⟨req, h1, h3 (by decide)⟩

/-- C6: when the call reaches the network, the one request that joins the
trace is a PUT whose declared content length is the size `n` given by the stat
of the opened file; when the transport answers with a status in 200..299 the
call succeeds and the size it returns is that same `n`; and no successful
return carries any other size, whatever the transport did. -/
theorem upload_put_content_length {OutputType : Type} (env : Env) (u : PUTUploader)
    (localFilepath storageFilepath : String) (outputType : OutputType) (w : World)
    (file : Nat) (n : Int)
    (hopen : env.osOpen localFilepath = .ok file)
    (hstat : env.fileStat file = .ok n)
    (hreq : env.urlParse (u.endpoint ++ "/" ++ storageFilepath) = none) :
    (∃ req, (upload env u localFilepath storageFilepath outputType w).2.requests
        = w.requests ++ [req] ∧ req.method = "PUT" ∧ req.contentLength = n) ∧
    (∀ resp, env.clientDo (putRequest env u localFilepath storageFilepath file n) = .ok resp →
      200 ≤ resp.statusCode → resp.statusCode ≤ 299 →
      (upload env u localFilepath storageFilepath outputType w).1.err = none ∧
      (upload env u localFilepath storageFilepath outputType w).1.size = n) ∧
    ((upload env u localFilepath storageFilepath outputType w).1.err = none →
      (upload env u localFilepath storageFilepath outputType w).1.size = n) := by
  refine ⟨⟨putRequest env u localFilepath storageFilepath file n,
      upload_requests env u localFilepath storageFilepath outputType w file n hopen hstat hreq,
      rfl, rfl⟩, ?_,
    upload_size_of_ok env u localFilepath storageFilepath outputType w file n hopen hstat hreq⟩
  intro resp hdo hlo hhi
  rw [upload_response env u localFilepath storageFilepath outputType w file n resp
    hopen hstat hreq hdo]
  rw [uploadResponse_ok _ _ _ _ _ _ ⟨hlo, hhi⟩]
  exact ⟨rfl, rfl⟩

theorem upload_put_content_length_witness :
    (∃ req, (upload demoEnv (NewPUTUploader "http://store/ok" 30000000000) "/out/room.mp4"
        "r.mp4" () demoWorld).2.requests = demoWorld.requests ++ [req] ∧ req.method = "PUT" ∧
        req.contentLength = 1024) ∧
    (upload demoEnv (NewPUTUploader "http://store/ok" 30000000000) "/out/room.mp4" "r.mp4" ()
        demoWorld).1.err = none ∧
    (upload demoEnv (NewPUTUploader "http://store/ok" 30000000000) "/out/room.mp4" "r.mp4" ()
        demoWorld).1.size = 1024 :=
  ⟨(upload_put_content_length demoEnv (NewPUTUploader "http://store/ok" 30000000000)
      "/out/room.mp4" "r.mp4" () demoWorld 7 1024 rfl rfl rfl).1,
    (upload_put_content_length demoEnv (NewPUTUploader "http://store/ok" 30000000000)
      "/out/room.mp4" "r.mp4" () demoWorld 7 1024 rfl rfl rfl).2.1
        { statusCode := 200, body := 21 } rfl (by decide) (by decide)⟩

/-- C8: the `outputType` argument has no influence: for any two values, of
any two types, `upload` returns the same `(url, size, error)` and leaves the
same world, hence the same request in the trace. -/
theorem upload_outputType_irrelevant {T1 T2 : Type} (env : Env) (u : PUTUploader)
    (localFilepath storageFilepath : String) (t1 : T1) (t2 : T2) (w : World) :
    upload env u localFilepath storageFilepath t1 w
      = upload env u localFilepath storageFilepath t2 w :=
  rfl

/-- C7: `upload` returns one of two shapes.  The error is nil exactly when the
file opens, the stat succeeds, the request is constructed, the transport
returns a response and its status is in 200..299, and then the result is the
URL, the size of the stat and nil; in every other case the error is not nil,
the URL is empty and the size is 0. -/
theorem upload_all_or_nothing {OutputType : Type} (env : Env) (u : PUTUploader)
    (localFilepath storageFilepath : String) (outputType : OutputType) (w : World) :
    ((upload env u localFilepath storageFilepath outputType w).1.err = none ↔
      ∃ file n resp, env.osOpen localFilepath = .ok file ∧ env.fileStat file = .ok n ∧
        env.urlParse (u.endpoint ++ "/" ++ storageFilepath) = none ∧
        env.clientDo (putRequest env u localFilepath storageFilepath file n) = .ok resp ∧
        200 ≤ resp.statusCode ∧ resp.statusCode ≤ 299) ∧
    ((upload env u localFilepath storageFilepath outputType w).1.err = none →
      ∃ file n, env.osOpen localFilepath = .ok file ∧ env.fileStat file = .ok n ∧
        (upload env u localFilepath storageFilepath outputType w).1
          = { url := u.endpoint ++ "/" ++ storageFilepath, size := n, err := none }) ∧
    ((upload env u localFilepath storageFilepath outputType w).1.err ≠ none →
      (upload env u localFilepath storageFilepath outputType w).1.url = "" ∧
      (upload env u localFilepath storageFilepath outputType w).1.size = 0) := by
  cases hopen : env.osOpen localFilepath with
  | error e =>
    rw [upload_open_error env u localFilepath storageFilepath outputType w e hopen]
    simp
  | ok file =>
    cases hstat : env.fileStat file with
    | error e =>
      rw [upload_stat_error env u localFilepath storageFilepath outputType w file e hopen hstat]
      simp [hstat]
    | ok n =>
      cases hreq : env.urlParse (u.endpoint ++ "/" ++ storageFilepath) with
      | some e =>
        rw [upload_request_error env u localFilepath storageFilepath outputType w file n e
          hopen hstat hreq]
        simp
      | none =>
        cases hdo : env.clientDo (putRequest env u localFilepath storageFilepath file n) with
        | error e =>
          rw [upload_transport_error env u localFilepath storageFilepath outputType w file n e
            hopen hstat hreq hdo]
          simp [hstat, hdo]
        | ok resp =>
          rw [upload_response env u localFilepath storageFilepath outputType w file n resp
            hopen hstat hreq hdo]
          by_cases hs : 200 ≤ resp.statusCode ∧ resp.statusCode ≤ 299
          · rw [uploadResponse_ok _ _ _ _ _ _ hs]
            simp [hstat, hdo, hs]
          · rw [uploadResponse_fail _ _ _ _ _ _ hs]
            refine ⟨⟨fun h => by simp at h, ?_⟩, fun h => by simp at h, fun _ => ⟨rfl, rfl⟩⟩
            rintro ⟨file2, n2, resp2, h1, h2, _, h4, h5⟩
            cases h1
            rw [hstat] at h2
            cases h2
            rw [hdo] at h4
            cases h4
            exact absurd h5 hs

end Uploader
